import Mathlib

/-!
Verification development for the OpenRouter key-rotation proxy.

The definitions below are a shallow embedding of the rotation engine found
in src/index.js (the primary variant) and src/unnamed/part_001 (the variant
that additionally tracks per-key cooldowns and catches transport errors).
Wall-clock timestamps and latencies are modelled as natural numbers; the
JSON extraction of choices[0].message.content performed for log display is
abstracted as a field of the upstream response (no claim depends on it).
-/

set_option autoImplicit false

namespace Rotator

/-- One entry of the in-memory activity log ring buffer
(src/index.js addLog callers).  The ts and latencyMs fields of the source
are wall-clock values and are omitted; keyIndex, user, reply and status are
kept as the source computes them. -/
structure LogEntry where
  keyIndex : Nat
  user : String
  reply : String
  status : Nat
deriving DecidableEq, Repr

/-- MAX_LOGS constant of src/index.js line 123. -/
def MAX_LOGS : Nat := 500

/-- addLog of src/index.js lines 125-128: push the entry, then shift the
oldest entry out when the length exceeds MAX_LOGS. -/
def addLog (logs : List LogEntry) (entry : LogEntry) : List LogEntry :=
  if MAX_LOGS < (logs ++ [entry]).length then (logs ++ [entry]).tail
  else logs ++ [entry]

/-- JS String.prototype.slice(0, n): the first n characters of the string. -/
def sliceFirst (s : String) (n : Nat) : String :=
  String.mk (s.data.take n)

/-- JS String.prototype.slice with a negative start (k.slice(-n)): the last
n characters of the string. -/
def sliceLast (s : String) (n : Nat) : String :=
  String.mk (s.data.drop (s.data.length - n))

/-- maskKey of src/index.js lines 129-132: keys shorter than 8 characters
(and the empty key) display as a fixed placeholder, otherwise the first six
characters, an ellipsis and the last four. -/
def maskKey (k : String) : String :=
  if k.length < 8 then "sk-****" else sliceFirst k 6 ++ "..." ++ sliceLast k 4

/-- The circular skip scan inside rotateKey (src/index.js lines 84-88 and
src/unnamed/part_001 lines 68-72), parameterised by the skip predicate.
The JS do/while body runs with a try counter; the loop keeps moving while
tries <= total and the freshly reached position is skipped.  Here
remaining = total - tries, so the initial call has remaining = total and
the remaining = 0 case is the final body execution after which the counter
check fails regardless of the skip predicate. -/
def scanNext (skip : Nat → Bool) (total : Nat) : Nat → Nat → Nat
  | 0, cur => (cur + 1) % total
  | remaining + 1, cur =>
    let next := (cur + 1) % total
    if skip next then scanNext skip total remaining next else next

/-- Module-level rotation state of src/index.js lines 60-79:
the key list, the cursor, the rotation counter, the dead and rate-limited
sets and the per-key use counter. -/
structure RotState where
  keys : List String
  current : Nat
  rotations : Nat
  dead : List String
  rateLimited : List String
  useCount : List (String × Nat)
deriving DecidableEq, Repr

/-- Set.add on a set modelled as a duplicate-free list. -/
def insertStr (k : String) (l : List String) : List String :=
  if k ∈ l then l else k :: l

/-- keyUseCount.set(key, 1 + (keyUseCount.get(key) || 0)) of
src/index.js line 195. -/
def bumpCount (k : String) : List (String × Nat) → List (String × Nat)
  | [] => [(k, 1)]
  | (a, n) :: t => if a = k then (a, n + 1) :: t else (a, n) :: bumpCount k t

/-- The skip predicate of src/index.js line 88: skip a position whose key is
in the dead set; an out-of-range position (KEYS[current] undefined) is not
skipped because deadKeys.has(undefined) is false. -/
def skipDead (s : RotState) (i : Nat) : Bool :=
  match s.keys.get? i with
  | some k => decide (k ∈ s.dead)
  | none => false

/-- KEYS.length || 1 of src/index.js line 83. -/
def rotTotal (s : RotState) : Nat :=
  if s.keys.length = 0 then 1 else s.keys.length

/-- rotateKey of src/index.js lines 82-91: total = KEYS.length || 1, run the
skip scan from the cursor, and increment the rotation counter on every call. -/
def rotateKey (s : RotState) : RotState :=
  { s with
    current := scanNext (skipDead s) (rotTotal s) (rotTotal s) s.current
    rotations := s.rotations + 1 }

/-- activeKey of src/index.js line 81 (KEYS[current], possibly undefined). -/
def activeKey (s : RotState) : Option String :=
  s.keys.get? s.current

/-- The 401/403 handling of src/index.js lines 182-187: add the key to the
dead set, then rotate. -/
def markDead (s : RotState) (k : String) : RotState :=
  rotateKey { s with dead := insertStr k s.dead }

/-- Module-level rotation state of src/unnamed/part_001 lines 52-63, which
additionally keeps keyCooldown, a map from key to the timestamp until which
the key is cooling down. -/
structure P1State where
  keys : List String
  current : Nat
  rotations : Nat
  dead : List String
  rateLimited : List String
  useCount : List (String × Nat)
  cooldown : List (String × Nat)
deriving DecidableEq, Repr

/-- keyCooldown.get(k) || 0 of src/unnamed/part_001 lines 72 and 119. -/
def cdGet (cd : List (String × Nat)) (k : String) : Nat :=
  match cd.find? (fun p => p.1 == k) with
  | some p => p.2
  | none => 0

/-- keyCooldown.set(k, v) of src/unnamed/part_001 lines 140 and 161. -/
def cdSet (k : String) (v : Nat) : List (String × Nat) → List (String × Nat)
  | [] => [(k, v)]
  | (a, n) :: t => if a = k then (a, v) :: t else (a, n) :: cdSet k v t

/-- The skip predicate of src/unnamed/part_001 line 72: skip a position
whose key is dead or whose cooldown timestamp is still in the future. -/
def skipIneligible (s : P1State) (now : Nat) (i : Nat) : Bool :=
  match s.keys.get? i with
  | some k => decide (k ∈ s.dead) || decide (now < cdGet s.cooldown k)
  | none => false

/-- KEYS.length || 1 of src/unnamed/part_001 line 67. -/
def p1Total (s : P1State) : Nat :=
  if s.keys.length = 0 then 1 else s.keys.length

/-- rotateKey of src/unnamed/part_001 lines 66-75: same circular scan as the
index.js variant, but skipping keys that are dead or still cooling down. -/
def rotateKeyC (s : P1State) (now : Nat) : P1State :=
  { s with
    current := scanNext (skipIneligible s now) (p1Total s) (p1Total s) s.current
    rotations := s.rotations + 1 }

/-- One chat message of the inbound payload. -/
structure Msg where
  role : String
  content : String
deriving DecidableEq, Repr

/-- The inbound JSON request body.  model and messages are the two fields
the orchestrator inspects and possibly fills in; every other field is kept
opaque as a list of key/value pairs and is passed through untouched. -/
structure Body where
  model : Option String
  messages : Option (List Msg)
  rest : List (String × String)
deriving DecidableEq, Repr

/-- JS truthiness test on the model field: a missing field and the empty
string are both falsy. -/
def falsyStr : Option String → Bool
  | none => true
  | some s => s == ""

/-- process.env.MODEL || the built-in default (src/index.js line 139);
an empty MODEL environment value is falsy and also yields the default. -/
def envModelVal (envModel : Option String) : String :=
  match envModel with
  | some s => if s = "" then "deepseek/deepseek-chat-v3-0324:free" else s
  | none => "deepseek/deepseek-chat-v3-0324:free"

/-- The request-shaping defaults of src/index.js lines 138-143 (identical
in src/unnamed/part_001 lines 106-107).  The source mutates the body object
in place; the shallow embedding returns the updated object, which is the
one serialized to the upstream on every attempt. -/
def defaultBody (envModel : Option String) (b : Body) : Body :=
  { model := if falsyStr b.model then some (envModelVal envModel) else b.model
    messages :=
      match b.messages with
      | none => some [{ role := "user", content := "Hello" }]
      | some ms => some ms
    rest := b.rest }

/-- The last user-role message extraction of src/index.js lines 149-153:
reverse the messages, find the first with role user, truncate its content
to 1000 characters; empty string when none is found. -/
def lastUserMsg (msgs : List Msg) : String :=
  match msgs.reverse.find? (fun m => m.role == "user") with
  | some m => sliceFirst m.content 1000
  | none => ""

/-- One upstream HTTP response as the orchestrator observes it.
modelReply abstracts the JSON extraction of choices[0].message.content
performed for log display (src/index.js lines 198-204); retryAfter
abstracts the parsed retry-after header value in seconds. -/
structure Response where
  status : Nat
  contentType : Option String
  text : String
  modelReply : String
  retryAfter : Option Nat
deriving DecidableEq, Repr

/-- The of forwardToOpenRouter result shape: status, content type and raw
body handed back to the express route handler. -/
structure ProxyResult where
  status : Nat
  contentType : String
  text : String
deriving DecidableEq, Repr

/-- JSON.stringify of the exhaustion error object (src/index.js line 232). -/
def exhaustText : String :=
  "\x7b\"error\":\"All API keys are exhausted or invalid. Please wait or add more keys.\"\x7d"

/-- Outcome of one forwardToOpenRouter call: the returned value (or the
propagated transport exception), the final rotation state, the log buffer,
and the payloads serialized to the upstream, one per fetch attempt. -/
structure ForwardOut where
  result : Except String ProxyResult
  state : RotState
  logs : List LogEntry
  sent : List Body
deriving Repr

/-- The retry-across-keys loop of src/index.js lines 155-236.  remaining is
the number of loop iterations left (the source iterates tries from 0 while
tries < KEYS.length); the oracle o gives the upstream outcome of the
attempt with the given tries index, Except.error being a thrown transport
error, which the source does not catch, so it aborts the whole call. -/
def forwardLoop (o : Nat → Except String Response) (b2 : Body) (user : String) :
    Nat → Nat → RotState → List LogEntry → List Body → ForwardOut
  | 0, _, s, logs, sent =>
    { result := Except.ok { status := 429, contentType := "application/json", text := exhaustText }
      state := s
      logs := addLog logs { keyIndex := 0, user := user, reply := "", status := 429 }
      sent := sent }
  | remaining + 1, tries, s, logs, sent =>
    let key := (s.keys.get? s.current).getD ""
    let keyIndex := s.current
    match o tries with
    | Except.error e =>
      { result := Except.error e, state := s, logs := logs, sent := sent ++ [b2] }
    | Except.ok r =>
      if r.status = 429 then
        forwardLoop o b2 user remaining (tries + 1)
          (rotateKey { s with rateLimited := insertStr key s.rateLimited }) logs (sent ++ [b2])
      else if r.status = 401 ∨ r.status = 403 then
        forwardLoop o b2 user remaining (tries + 1)
          (rotateKey { s with dead := insertStr key s.dead }) logs (sent ++ [b2])
      else
        { result := Except.ok { status := r.status,
                                contentType := r.contentType.getD "application/json",
                                text := r.text }
          state := { s with useCount := bumpCount key s.useCount }
          logs := addLog logs { keyIndex := keyIndex + 1, user := user,
                                reply := sliceFirst r.modelReply 2000, status := r.status }
          sent := sent ++ [b2] }

/-- forwardToOpenRouter of src/index.js lines 135-236: fill the body
defaults, extract the latest user message, then run the retry loop over at
most KEYS.length attempts. -/
def forwardToOpenRouter (envModel : Option String) (o : Nat → Except String Response)
    (s : RotState) (b : Body) (logs : List LogEntry) : ForwardOut :=
  let b2 := defaultBody envModel b
  let user := lastUserMsg (b2.messages.getD [])
  forwardLoop o b2 user s.keys.length 0 s logs []

/-- res.status(500).json of src/index.js line 245. -/
def proxyErrText (e : String) : String :=
  "\x7b\"error\":\"Proxy error\",\"detail\":\"" ++ e ++ "\"\x7d"

/-- The express route handler of src/index.js lines 239-247: return the
forward result verbatim, or a synthesized 500 when the forwarding call
threw. -/
def chatCompletions (envModel : Option String) (o : Nat → Except String Response)
    (s : RotState) (b : Body) (logs : List LogEntry) : ProxyResult :=
  match (forwardToOpenRouter envModel o s b logs).result with
  | Except.ok r => r
  | Except.error e =>
    { status := 500, contentType := "application/json", text := proxyErrText e }

/-- Outcome of one forwardToOpenRouter call of the part_001 variant, which
catches transport errors inside the loop and therefore always returns a
well-formed result. -/
structure P1Out where
  result : ProxyResult
  state : P1State
  logs : List LogEntry
  sent : List Body
deriving Repr

/-- JSON.stringify of the exhaustion error object of src/unnamed/part_001
line 166 (its wording differs slightly from the index.js variant). -/
def p1ExhaustText : String :=
  "\x7b\"error\":\"All API keys exhausted or invalid. Please wait or add more keys.\"\x7d"

/-- The retry-across-keys loop of src/unnamed/part_001 lines 114-167.
Differences from the index.js variant: a key still cooling down is skipped
without a fetch (consuming one attempt), the fetch is wrapped in try/catch
so a transport error rotates and continues instead of aborting, a 429 puts
the key in cooldown, and a returned key receives a 50 ms cooldown buffer.
The wall clock is frozen at now for the duration of the call and the
randomized 429 backoff is abstracted as the jitter oracle. -/
def forwardP1Loop (o : Nat → Except String Response) (b2 : Body) (user : String)
    (now : Nat) (jitter : Nat → Nat) :
    Nat → Nat → P1State → List LogEntry → List Body → P1Out
  | 0, _, s, logs, sent =>
    { result := { status := 429, contentType := "application/json", text := p1ExhaustText }
      state := s
      logs := addLog logs { keyIndex := 0, user := user, reply := "", status := 429 }
      sent := sent }
  | remaining + 1, tries, s, logs, sent =>
    let key := (s.keys.get? s.current).getD ""
    let keyIndex := s.current
    if now < cdGet s.cooldown key then
      forwardP1Loop o b2 user now jitter remaining (tries + 1) (rotateKeyC s now) logs sent
    else
      match o tries with
      | Except.error _ =>
        forwardP1Loop o b2 user now jitter remaining (tries + 1) (rotateKeyC s now)
          logs (sent ++ [b2])
      | Except.ok r =>
        if r.status = 429 then
          forwardP1Loop o b2 user now jitter remaining (tries + 1)
            (rotateKeyC
              { s with rateLimited := insertStr key s.rateLimited,
                       cooldown := cdSet key
                         (now + (match r.retryAfter with
                                 | some ra => if ra = 0 then jitter tries else ra * 1000
                                 | none => jitter tries)) s.cooldown } now)
            logs (sent ++ [b2])
        else if r.status = 401 ∨ r.status = 403 then
          forwardP1Loop o b2 user now jitter remaining (tries + 1)
            (rotateKeyC { s with dead := insertStr key s.dead } now) logs (sent ++ [b2])
        else
          { result := { status := r.status,
                        contentType := r.contentType.getD "application/json",
                        text := r.text }
            state := { s with useCount := bumpCount key s.useCount,
                              cooldown := cdSet key (now + 50) s.cooldown }
            logs := addLog logs { keyIndex := keyIndex + 1, user := user,
                                  reply := sliceFirst r.text 2000, status := r.status }
            sent := sent ++ [b2] }

/-- forwardToOpenRouter of src/unnamed/part_001 lines 104-167. -/
def forwardP1 (envModel : Option String) (o : Nat → Except String Response)
    (now : Nat) (jitter : Nat → Nat) (s : P1State) (b : Body)
    (logs : List LogEntry) : P1Out :=
  let b2 := defaultBody envModel b
  let user := lastUserMsg (b2.messages.getD [])
  forwardP1Loop o b2 user now jitter s.keys.length 0 s logs []

/-- Configuration of the admission queue: MAX_CONCURRENT and
MIN_INTERVAL_MS of src/index.js lines 94-95. -/
structure QCfg where
  maxConcurrent : Nat
  minInterval : Nat

/-- State of the admission queue of src/index.js lines 96-98: the in-flight
count, the last recorded start time, the queue depth, and a ghost log of
task starts, newest first, each recording its start time and whether some
other task was already in flight at the admission check. -/
structure QState where
  active : Nat
  lastStart : Nat
  pending : Nat
  starts : List (Nat × Bool)
deriving Repr

/-- The atomic transitions of the queue machinery of src/index.js lines
99-120, taken at time t.  A start step mirrors one runNext call that admits
a task: it requires free capacity, a non-empty queue and, as in the source,
wait = max(0, MIN_INTERVAL_MS - (now - lastStart)) to be zero unless no
task is in flight.  submit mirrors schedule pushing a task; finish mirrors
a task settling.  Every transition is a single non-suspending step of the
cooperative scheduler. -/
inductive QStep (cfg : QCfg) : QState → Nat → QState → Prop
  | submit (s : QState) (t : Nat) :
      QStep cfg s t { s with pending := s.pending + 1 }
  | start (s : QState) (t : Nat)
      (hcap : s.active < cfg.maxConcurrent)
      (hq : 0 < s.pending)
      (hwait : cfg.minInterval - (t - s.lastStart) = 0 ∨ s.active = 0) :
      QStep cfg s t
        { active := s.active + 1, lastStart := t, pending := s.pending - 1,
          starts := (t, decide (0 < s.active)) :: s.starts }
  | finish (s : QState) (t : Nat) (hact : 0 < s.active) :
      QStep cfg s t { s with active := s.active - 1 }

/-- Reachability of a queue state along a trace of timestamped transitions
with non-decreasing time, starting from the idle initial state. -/
inductive QReach (cfg : QCfg) : Nat → QState → Prop
  | init : QReach cfg 0 { active := 0, lastStart := 0, pending := 0, starts := [] }
  | step {t t2 : Nat} {s s2 : QState} :
      QReach cfg t s → t ≤ t2 → QStep cfg s t2 s2 → QReach cfg t2 s2

/-- The pacing property over the ghost start log: whenever a task started
while another was in flight, its start time is at least minInterval after
the previous recorded start time. -/
def gapOK (minI : Nat) : List (Nat × Bool) → Prop
  | (t2, b2) :: (t1, b1) :: rest =>
    (b2 = true → t1 + minI ≤ t2) ∧ gapOK minI ((t1, b1) :: rest)
  | _ => True

/-- The queue invariant: bounded concurrency, a last start time in the
past, lastStart agreeing with the newest ghost log entry, and the pacing
property on all recorded starts. -/
def QInv (cfg : QCfg) (t : Nat) (s : QState) : Prop :=
  s.active ≤ cfg.maxConcurrent ∧
  s.lastStart ≤ t ∧
  (∀ p, s.starts.head? = some p → s.lastStart = p.1) ∧
  gapOK cfg.minInterval s.starts

end Rotator

namespace Rotator

/-! Theorems about the rotation scan. -/

/-- If some position reachable within the remaining scan budget is not
skipped, the scan stops at a non-skipped position. -/
theorem scanNext_not_skipped (skip : Nat → Bool) (total : Nat) :
    ∀ (remaining cur : Nat),
      (∃ m, 1 ≤ m ∧ m ≤ remaining + 1 ∧ skip ((cur + m) % total) = false) →
      skip (scanNext skip total remaining cur) = false := by
  intro remaining
  induction remaining with
  | zero =>
    intro cur h
    obtain ⟨m, hm1, hm2, hm3⟩ := h
    have hm : m = 1 := Nat.le_antisymm hm2 hm1
    subst hm
    simpa [scanNext] using hm3
  | succ r ih =>
    intro cur h
    obtain ⟨m, hm1, hm2, hm3⟩ := h
    rw [scanNext]
    by_cases hs : skip ((cur + 1) % total) = true
    · simp only [hs, if_true]
      apply ih
      have hm1' : 2 ≤ m := by
        by_contra hmlt
        have hm : m = 1 := by omega
        subst hm
        rw [hm3] at hs
        exact absurd hs (by simp)
      refine ⟨m - 1, by omega, by omega, ?_⟩
      have : ((cur + 1) % total + (m - 1)) % total = (cur + 1 + (m - 1)) % total :=
        Nat.mod_add_mod (cur + 1) total (m - 1)
      rw [this]
      have hadd : cur + 1 + (m - 1) = cur + m := by omega
      rw [hadd]
      exact hm3
    · have hs' : skip ((cur + 1) % total) = false := by
        cases hb : skip ((cur + 1) % total)
        · rfl
        · exact absurd hb hs
      simp only [hs', if_false]
      exact hs'

/-- Any residue j < total is reached from cur in between 1 and total steps. -/
theorem exists_step_to_residue (total cur j : Nat) (hj : j < total) :
    ∃ m, 1 ≤ m ∧ m ≤ total ∧ (cur + m) % total = j := by
  have htotal : 0 < total := Nat.lt_of_le_of_lt (Nat.zero_le j) hj
  set c := cur % total with hc
  have hclt : c < total := Nat.mod_lt _ htotal
  rcases Nat.lt_or_ge c j with hlt | hge
  · refine ⟨j - c, by omega, by omega, ?_⟩
    have h1 : (c + (j - c)) % total = (cur + (j - c)) % total := by
      rw [hc]; exact Nat.mod_add_mod cur total (j - c)
    rw [← h1]
    have h2 : c + (j - c) = j := by omega
    rw [h2, Nat.mod_eq_of_lt hj]
  · refine ⟨total + j - c, by omega, by omega, ?_⟩
    have h1 : (c + (total + j - c)) % total = (cur + (total + j - c)) % total := by
      rw [hc]; exact Nat.mod_add_mod cur total (total + j - c)
    rw [← h1]
    have h2 : c + (total + j - c) = total + j := by omega
    rw [h2, Nat.add_mod_left, Nat.mod_eq_of_lt hj]

/-- The scan stops at the position immediately after the cursor when that
position is not skipped. -/
theorem scanNext_stops_at_next (skip : Nat → Bool) (total remaining cur : Nat)
    (h : skip ((cur + 1) % total) = false) :
    scanNext skip total remaining cur = (cur + 1) % total := by
  cases remaining with
  | zero => rfl
  | succ r => simp [scanNext, h]

/-- Helper: in a pool with a live key, the cursor after rotateKey points at
a position whose key is not dead. -/
theorem rotateKey_lands_not_dead (s : RotState)
    (halive : ∃ k, k ∈ s.keys ∧ k ∉ s.dead) :
    skipDead s (rotateKey s).current = false := by
  obtain ⟨k, hk, hkd⟩ := halive
  obtain ⟨j, hj⟩ := List.mem_iff_get?.mp hk
  have hjlt : j < s.keys.length := by
    by_contra hge
    rw [List.get?_eq_none.mpr (Nat.le_of_not_lt hge)] at hj
    exact Option.noConfusion hj
  have hne : s.keys.length ≠ 0 := by omega
  have htot : rotTotal s = s.keys.length := if_neg hne
  have hskipj : skipDead s j = false := by
    unfold skipDead
    rw [hj]
    simp [hkd]
  obtain ⟨m, hm1, hm2, hm3⟩ := exists_step_to_residue s.keys.length s.current j hjlt
  have : (rotateKey s).current = scanNext (skipDead s) (rotTotal s) (rotTotal s) s.current := rfl
  rw [this, htot]
  apply scanNext_not_skipped
  exact ⟨m, hm1, by omega, by rw [hm3]; exact hskipj⟩

/-- Claim C1 (amended): once a credential is in the dead set, active()
never returns it after any advance(), provided at least one credential in
the pool is not dead; when every credential is dead the bounded scan gives
up and the cursor may come to rest on a dead credential. -/
theorem claim_C1_dead_key_never_active (s : RotState)
    (halive : ∃ k, k ∈ s.keys ∧ k ∉ s.dead) :
    ∀ d ∈ s.dead, activeKey (rotateKey s) ≠ some d := by
  intro d hd
  have hstop := rotateKey_lands_not_dead s halive
  show s.keys.get? (rotateKey s).current ≠ some d
  cases hget : s.keys.get? (rotateKey s).current with
  | none => exact fun h => Option.noConfusion h
  | some k2 =>
    intro hkd
    have hk2 : k2 = d := Option.some.inj hkd
    subst hk2
    unfold skipDead at hstop
    rw [hget] at hstop
    simp at hstop
    exact hstop hd

/-- Concrete all-dead single-key pool used in the C1 counterexample. -/
def c1Pool : RotState :=
  { keys := ["a"], current := 0, rotations := 0,
    dead := [], rateLimited := [], useCount := [] }

/-- Claim C1 counterexample: mark the only key of a one-key pool dead
(the 401/403 code path: add to the dead set, then rotate).  Both right
after the marking and after one further advance(), active() returns the
dead credential again, even though no clear-dead-flags operation ran. -/
theorem claim_C1_counterexample :
    (markDead c1Pool ("a")).dead = ["a"] ∧
    activeKey (markDead c1Pool ("a")) = some ("a") ∧
    activeKey (rotateKey (markDead c1Pool ("a"))) = some ("a") := by
  decide

/-- Claim C1 witness: in a two-key pool where only the first key is dead,
advance() does not land on the dead key. -/
theorem claim_C1_witness :
    activeKey (rotateKey
      { keys := ["a", "b"], current := 0, rotations := 0,
        dead := ["a"], rateLimited := [], useCount := [] }) ≠ some ("a") :=
  claim_C1_dead_key_never_active _ ⟨"b", by decide, by decide⟩ ("a") (by decide)

/-- Helper: in a pool with an eligible key, the cursor after the cooldown
variant of rotateKey points at a position that is neither dead nor cooling. -/
theorem rotateKeyC_lands_eligible (s : P1State) (now : Nat)
    (helig : ∃ j, j < s.keys.length ∧ skipIneligible s now j = false) :
    skipIneligible s now (rotateKeyC s now).current = false := by
  obtain ⟨j, hjlt, hskipj⟩ := helig
  have hne : s.keys.length ≠ 0 := by omega
  have htot : p1Total s = s.keys.length := if_neg hne
  obtain ⟨m, hm1, hm2, hm3⟩ := exists_step_to_residue s.keys.length s.current j hjlt
  have : (rotateKeyC s now).current
      = scanNext (skipIneligible s now) (p1Total s) (p1Total s) s.current := rfl
  rw [this, htot]
  apply scanNext_not_skipped
  exact ⟨m, hm1, by omega, by rw [hm3]; exact hskipj⟩

/-- Claim C2 (amended): while at least one credential of the pool is
eligible (neither dead nor in pending cooldown), advance() never leaves the
cursor on a credential whose cooldownUntil lies in the future: the key at
the new cursor is not dead and its cooldown has passed.  Moreover, once the
cooldown instant of the next position has passed, the first advance() call
selects that position again.  When every credential is ineligible the
bounded scan gives up and the cursor may rest on a cooling credential. -/
theorem claim_C2_cooldown_skipped (s : P1State) (now : Nat)
    (helig : ∃ j, j < s.keys.length ∧ skipIneligible s now j = false) :
    (∀ k, s.keys.get? (rotateKeyC s now).current = some k →
        k ∉ s.dead ∧ cdGet s.cooldown k ≤ now) ∧
    (skipIneligible s now ((s.current + 1) % s.keys.length) = false →
        (rotateKeyC s now).current = (s.current + 1) % s.keys.length) := by
  have hne : s.keys.length ≠ 0 := by
    obtain ⟨j, hjlt, _⟩ := helig
    omega
  have htot : p1Total s = s.keys.length := if_neg hne
  constructor
  · intro k hget
    have hstop := rotateKeyC_lands_eligible s now helig
    unfold skipIneligible at hstop
    rw [hget] at hstop
    simp at hstop
    exact hstop
  · intro hnext
    have : (rotateKeyC s now).current
        = scanNext (skipIneligible s now) (p1Total s) (p1Total s) s.current := rfl
    rw [this, htot]
    exact scanNext_stops_at_next _ _ _ _ hnext

/-- Concrete one-key pool whose only key is cooling down until instant 10,
used in the C2 counterexample. -/
def c2Pool : P1State :=
  { keys := ["a"], current := 0, rotations := 0,
    dead := [], rateLimited := [], useCount := [], cooldown := [("a", 10)] }

/-- Claim C2 counterexample: at time 5 the only key's cooldownUntil (10)
lies in the future, yet advance() sets the cursor to that credential's
position (index 0). -/
theorem claim_C2_counterexample :
    cdGet c2Pool.cooldown ("a") = 10 ∧
    (5 : Nat) < 10 ∧
    (rotateKeyC c2Pool 5).current = 0 ∧
    c2Pool.keys.get? 0 = some ("a") := by
  decide

/-- Claim C2 witness: keys a and b, b cooling until 10; at time 20 the
cooldown has passed and advance() from cursor 0 selects b at position 1. -/
theorem claim_C2_witness :
    (rotateKeyC
      { keys := ["a", "b"], current := 0, rotations := 0,
        dead := [], rateLimited := [], useCount := [],
        cooldown := [("b", 10)] } 20).current = 1 :=
  (claim_C2_cooldown_skipped _ 20 ⟨1, by decide, by decide⟩).2 (by decide)

/-- Claim C5: rotateKey terminates on every pool (it is a total function),
increments the rotation counter by exactly one on every call including the
degenerate empty and single-key pools, and leaves the cursor at index 0
whenever the pool has at most one key. -/
theorem claim_C5_advance_safe (s : RotState) :
    (rotateKey s).rotations = s.rotations + 1 ∧
    (s.keys.length ≤ 1 → (rotateKey s).current = 0) := by
  refine ⟨rfl, ?_⟩
  intro hlen
  obtain ⟨keys, cur, rot, dead, rl, uc⟩ := s
  rcases keys with _ | ⟨a, rest⟩
  · simp [rotateKey, rotTotal, scanNext, skipDead, Nat.mod_one]
  · rcases rest with _ | ⟨b, t⟩
    · by_cases h : a ∈ dead
      · simp [rotateKey, rotTotal, scanNext, skipDead, Nat.mod_one, h]
      · simp [rotateKey, rotTotal, scanNext, skipDead, Nat.mod_one, h]
    · simp at hlen

/-- One addLog step keeps the buffer within capacity and, below capacity,
is a plain append. -/
theorem addLog_below_cap (l : List LogEntry) (e : LogEntry)
    (h : l.length < 500) : addLog l e = l ++ [e] := by
  unfold addLog MAX_LOGS
  have hx : ¬ 500 < (l ++ [e]).length := by
    simp only [List.length_append, List.length_singleton]
    omega
  rw [if_neg hx]

/-- Folding addLog over a sequence of appends keeps exactly the most recent
500 entries of the combined history. -/
theorem foldl_addLog (es : List LogEntry) :
    ∀ l : List LogEntry, l.length ≤ 500 →
      List.foldl addLog l es = (l ++ es).drop ((l ++ es).length - 500) := by
  induction es with
  | nil =>
    intro l h
    simp [Nat.sub_eq_zero_of_le h]
  | cons e es ih =>
    intro l h
    rw [List.foldl_cons]
    rcases Nat.lt_or_ge l.length 500 with h1 | h1
    · rw [addLog_below_cap l e h1,
        ih (l ++ [e]) (by simp only [List.length_append, List.length_singleton]; omega)]
      have hassoc : (l ++ [e]) ++ es = l ++ e :: es := by simp
      rw [hassoc]
    · have h500 : l.length = 500 := Nat.le_antisymm h h1
      rcases l with _ | ⟨a, t⟩
      · simp at h500
      · have ht : t.length = 499 := by
          simp only [List.length_cons] at h500
          omega
        have htl : addLog (a :: t) e = t ++ [e] := by
          unfold addLog MAX_LOGS
          have hc : 500 < ((a :: t) ++ [e]).length := by
            simp only [List.length_append, List.length_cons, List.length_singleton]
            omega
          rw [if_pos hc]
          rfl
        rw [htl, ih (t ++ [e]) (by simp only [List.length_append, List.length_singleton]; omega)]
        have e1 : (t ++ [e]) ++ es = t ++ e :: es := by simp
        have e2 : (a :: t) ++ e :: es = a :: (t ++ e :: es) := by simp
        rw [e1, e2]
        have hlen : (t ++ e :: es).length = 500 + es.length := by
          simp only [List.length_append, List.length_cons]
          omega
        have hlen2 : (a :: (t ++ e :: es)).length = 501 + es.length := by
          simp only [List.length_cons, hlen]
          omega
        rw [hlen, hlen2]
        have d1 : 500 + es.length - 500 = es.length := by omega
        have d2 : 501 + es.length - 500 = es.length + 1 := by omega
        rw [d1, d2, List.drop_succ_cons]

/-- Claim C7: the activity log is a capacity-500 ring buffer with FIFO
eviction: appending any sequence of entries to an empty buffer leaves
exactly the most recent min(total, 500) entries in append order (the
history with its oldest overflow dropped), so appending a 501st entry
drops exactly the single oldest one and the size never exceeds 500. -/
theorem claim_C7_ring_buffer (es : List LogEntry) :
    List.foldl addLog [] es = es.drop (es.length - 500) ∧
    (List.foldl addLog [] es).length = min es.length 500 ∧
    (List.foldl addLog [] es).length ≤ 500 := by
  have h := foldl_addLog es [] (by simp)
  simp only [List.nil_append] at h
  refine ⟨h, ?_, ?_⟩
  · rw [h, List.length_drop]
    omega
  · rw [h, List.length_drop]
    omega

/-- Claim C9 counterexample: the seven-character key abcdefg is displayed
as the fixed placeholder sk-****, not as its first six characters, an
ellipsis and its last four characters, so the claimed mask shape does not
hold for keys of every length. -/
theorem claim_C9_counterexample :
    maskKey ("abcdefg") = "sk-****" ∧
    maskKey ("abcdefg") ≠ ("abcdef" ++ "..." ++ "defg") := by
  decide

/-- Claim C9 (amended): keys of length at least 8 are displayed as their
first six characters, an ellipsis, and their last four characters (in
particular the spec example key displays as sk-ABC...1234); keys shorter
than 8 characters are displayed as the fixed placeholder sk-****; and for
keys of realistic length (at least 14 characters) the displayed mask is
never the raw key itself. -/
theorem claim_C9_masking (k : String) :
    (8 ≤ k.length → maskKey k = sliceFirst k 6 ++ "..." ++ sliceLast k 4) ∧
    (k.length < 8 → maskKey k = "sk-****") ∧
    (14 ≤ k.length → maskKey k ≠ k) := by
  refine ⟨?_, ?_, ?_⟩
  · intro h8
    unfold maskKey
    rw [if_neg (by omega)]
  · intro hlt
    unfold maskKey
    rw [if_pos hlt]
  · intro h14 heq
    have h8 : ¬ k.length < 8 := by omega
    unfold maskKey at heq
    rw [if_neg h8] at heq
    have hdata : k.data.length = k.length := rfl
    have hlen : (sliceFirst k 6 ++ "..." ++ sliceLast k 4).length = 13 := by
      rw [String.length_append, String.length_append]
      have ht : (sliceFirst k 6).length = 6 := by
        show (String.mk (k.data.take 6)).data.length = 6
        simp only [List.length_take]
        omega
      have hr : (sliceLast k 4).length = 4 := by
        show (String.mk (k.data.drop (k.data.length - 4))).data.length = 4
        simp only [List.length_drop]
        omega
      rw [ht, hr]
      decide
    rw [heq] at hlen
    omega

/-- Claim C9 witness: the spec example key displays as sk-ABC...1234, and
a two-character key displays as the placeholder. -/
theorem claim_C9_witness :
    maskKey ("sk-ABCDEFGHIJKL1234") = "sk-ABC...1234" ∧
    maskKey ("ab") = "sk-****" := by
  constructor
  · have h := (claim_C9_masking ("sk-ABCDEFGHIJKL1234")).1 (by decide)
    rw [h]
    decide
  · exact (claim_C9_masking ("ab")).2.1 (by decide)

/-- When every remaining attempt answers 429, the retry loop consumes all
remaining attempts, sends the prepared body once per attempt, and ends in
the exhaustion branch, appending exactly one log entry. -/
theorem forwardLoop_all429 (o : Nat → Except String Response) (b2 : Body) (user : String) :
    ∀ (remaining tries : Nat) (s : RotState) (logs : List LogEntry) (sent : List Body),
      (∀ i, i < remaining → ∃ r, o (tries + i) = Except.ok r ∧ r.status = 429) →
      ∃ s2, forwardLoop o b2 user remaining tries s logs sent =
        { result := Except.ok { status := 429, contentType := "application/json",
                                text := exhaustText }
          state := s2
          logs := addLog logs { keyIndex := 0, user := user, reply := "", status := 429 }
          sent := sent ++ List.replicate remaining b2 } := by
  intro remaining
  induction remaining with
  | zero =>
    intro tries s logs sent _
    exact ⟨s, by simp [forwardLoop]⟩
  | succ rem ih =>
    intro tries s logs sent h
    obtain ⟨r, hr, hst⟩ := h 0 (by omega)
    rw [Nat.add_zero] at hr
    obtain ⟨s2, hs2⟩ := ih (tries + 1)
      (rotateKey { s with
        rateLimited := insertStr ((s.keys.get? s.current).getD "") s.rateLimited })
      logs (sent ++ [b2])
      (fun i hi => by
        obtain ⟨r2, hr2, hst2⟩ := h (i + 1) (by omega)
        exact ⟨r2, by rwa [show tries + 1 + i = tries + (i + 1) by omega], hst2⟩)
    refine ⟨s2, ?_⟩
    rw [forwardLoop, hr]
    simp only [hst, if_pos rfl]
    rw [hs2]
    simp [List.replicate_succ]

/-- Claim C3: with a pool of N >= 1 credentials whose upstream calls all
answer HTTP 429, one forwarding call makes exactly N upstream attempts
(one serialized payload per attempt) and returns the synthesized 429
exhaustion result with content type application/json and the JSON error
body, while the log buffer gains exactly one entry for the request,
recorded with status 429 and an empty reply field. -/
theorem claim_C3_exhaustion (envModel : Option String) (o : Nat → Except String Response)
    (s : RotState) (b : Body) (logs : List LogEntry)
    (_hn : 1 ≤ s.keys.length)
    (h429 : ∀ i, i < s.keys.length → ∃ r, o i = Except.ok r ∧ r.status = 429) :
    (forwardToOpenRouter envModel o s b logs).result =
      Except.ok { status := 429, contentType := "application/json", text := exhaustText } ∧
    (forwardToOpenRouter envModel o s b logs).sent.length = s.keys.length ∧
    (forwardToOpenRouter envModel o s b logs).logs =
      addLog logs { keyIndex := 0,
                    user := lastUserMsg ((defaultBody envModel b).messages.getD []),
                    reply := "", status := 429 } ∧
    (logs.length < 500 →
      (forwardToOpenRouter envModel o s b logs).logs =
        logs ++ [{ keyIndex := 0,
                   user := lastUserMsg ((defaultBody envModel b).messages.getD []),
                   reply := "", status := 429 }]) := by
  obtain ⟨s2, hs2⟩ := forwardLoop_all429 o (defaultBody envModel b)
    (lastUserMsg ((defaultBody envModel b).messages.getD []))
    s.keys.length 0 s logs []
    (fun i hi => by
      obtain ⟨r, hr, hst⟩ := h429 i hi
      exact ⟨r, by rwa [Nat.zero_add], hst⟩)
  have hfwd : forwardToOpenRouter envModel o s b logs =
      forwardLoop o (defaultBody envModel b)
        (lastUserMsg ((defaultBody envModel b).messages.getD []))
        s.keys.length 0 s logs [] := rfl
  rw [hfwd, hs2]
  refine ⟨rfl, by simp, rfl, ?_⟩
  intro hlen
  exact addLog_below_cap logs _ hlen

/-- Claim C3 witness: two keys, every call answering 429: the result is the
exhaustion body, two attempts are made, one log entry is appended. -/
theorem claim_C3_witness :
    (forwardToOpenRouter none (fun _ => Except.ok
        { status := 429, contentType := none, text := "", modelReply := "",
          retryAfter := none })
      { keys := ["k1", "k2"], current := 0, rotations := 0,
        dead := [], rateLimited := [], useCount := [] }
      { model := none, messages := none, rest := [] } []).result =
      Except.ok { status := 429, contentType := "application/json", text := exhaustText } ∧
    (forwardToOpenRouter none (fun _ => Except.ok
        { status := 429, contentType := none, text := "", modelReply := "",
          retryAfter := none })
      { keys := ["k1", "k2"], current := 0, rotations := 0,
        dead := [], rateLimited := [], useCount := [] }
      { model := none, messages := none, rest := [] } []).sent.length = 2 := by
  have h := claim_C3_exhaustion none
    (fun _ => Except.ok
      { status := 429, contentType := none, text := "", modelReply := "",
        retryAfter := none })
    { keys := ["k1", "k2"], current := 0, rotations := 0,
      dead := [], rateLimited := [], useCount := [] }
    { model := none, messages := none, rest := [] } []
    (by decide)
    (fun i _ => ⟨_, rfl, rfl⟩)
  exact ⟨h.1, h.2.1⟩

/-- Claim C8: whenever the first upstream attempt answers with a status
outside 429/401/403 (in particular 200), the forwarding result carries that
exact status and body unchanged, the content type mirrors the upstream
content-type header whenever one is present (defaulting to
application/json when absent), and exactly one attempt is made. -/
theorem claim_C8_passthrough (envModel : Option String) (o : Nat → Except String Response)
    (s : RotState) (b : Body) (logs : List LogEntry) (r : Response)
    (hn : 1 ≤ s.keys.length)
    (hr : o 0 = Except.ok r)
    (h429 : r.status ≠ 429) (h401 : r.status ≠ 401) (h403 : r.status ≠ 403) :
    (forwardToOpenRouter envModel o s b logs).result =
      Except.ok { status := r.status, contentType := r.contentType.getD "application/json",
                  text := r.text } ∧
    (∀ ct, r.contentType = some ct →
      (forwardToOpenRouter envModel o s b logs).result =
        Except.ok { status := r.status, contentType := ct, text := r.text }) ∧
    (forwardToOpenRouter envModel o s b logs).sent.length = 1 := by
  obtain ⟨m, hm⟩ : ∃ m, s.keys.length = m + 1 := ⟨s.keys.length - 1, by omega⟩
  have hfwd : forwardToOpenRouter envModel o s b logs =
      forwardLoop o (defaultBody envModel b)
        (lastUserMsg ((defaultBody envModel b).messages.getD []))
        s.keys.length 0 s logs [] := rfl
  rw [hfwd, hm, forwardLoop, hr]
  simp only [if_neg h429, if_neg (by simp [h401, h403] : ¬ (r.status = 401 ∨ r.status = 403))]
  refine ⟨?_, ?_, ?_⟩
  · simp
  · intro ct hct
    simp [hct]
  · simp

/-- Claim C8 witness: a single key whose upstream answers 200 with body
BODY and content type text/plain: the result mirrors all three. -/
theorem claim_C8_witness :
    (forwardToOpenRouter none (fun _ => Except.ok
        { status := 200, contentType := some "text/plain", text := "BODY",
          modelReply := "", retryAfter := none })
      { keys := ["k1"], current := 0, rotations := 0,
        dead := [], rateLimited := [], useCount := [] }
      { model := none, messages := none, rest := [] } []).result =
      Except.ok { status := 200, contentType := "text/plain", text := "BODY" } :=
  (claim_C8_passthrough none _ _ _ [] _ (by decide) rfl
    (by decide) (by decide) (by decide)).2.1 ("text/plain") rfl

/-- Claim C5 witness: a single-key pool with rotation counter 5: after one
advance() the counter is 6 and the cursor is still 0. -/
theorem claim_C5_witness :
    (rotateKey
      { keys := ["k"], current := 0, rotations := 5,
        dead := [], rateLimited := [], useCount := [] }).rotations = 6 ∧
    (rotateKey
      { keys := ["k"], current := 0, rotations := 5,
        dead := [], rateLimited := [], useCount := [] }).current = 0 :=
  ⟨(claim_C5_advance_safe _).1, (claim_C5_advance_safe _).2 (by decide)⟩

/-- Every payload the retry loop serializes to the upstream is the prepared
(defaulted) body: the sent list is always the incoming one extended by some
number of copies of it. -/
theorem forwardLoop_sent_replicate (o : Nat → Except String Response) (b2 : Body)
    (user : String) :
    ∀ (remaining tries : Nat) (s : RotState) (logs : List LogEntry) (sent : List Body),
      ∃ n, (forwardLoop o b2 user remaining tries s logs sent).sent =
        sent ++ List.replicate n b2 := by
  intro remaining
  induction remaining with
  | zero =>
    intro tries s logs sent
    exact ⟨0, by simp [forwardLoop]⟩
  | succ rem ih =>
    intro tries s logs sent
    rw [forwardLoop]
    cases ho : o tries with
    | error e => exact ⟨1, by simp⟩
    | ok r =>
      by_cases h429 : r.status = 429
      · obtain ⟨n, hn2⟩ := ih (tries + 1)
          (rotateKey { s with
            rateLimited := insertStr ((s.keys.get? s.current).getD "") s.rateLimited })
          logs (sent ++ [b2])
        refine ⟨n + 1, ?_⟩
        simp only [if_pos h429]
        rw [hn2]
        simp [List.replicate_succ]
      · by_cases h4 : r.status = 401 ∨ r.status = 403
        · obtain ⟨n, hn2⟩ := ih (tries + 1)
            (rotateKey { s with
              dead := insertStr ((s.keys.get? s.current).getD "") s.dead })
            logs (sent ++ [b2])
          refine ⟨n + 1, ?_⟩
          simp only [if_neg h429, if_pos h4]
          rw [hn2]
          simp [List.replicate_succ]
        · refine ⟨1, ?_⟩
          simp only [if_neg h429, if_neg h4]
          simp

/-- Claim C10: forwardToOpenRouter fills the defaults onto the request body
object itself before serializing: a missing (or empty) model field becomes
the configured default model, a missing messages field becomes the
one-element placeholder user message, present fields and all other fields
are left unchanged, and every payload serialized to the upstream is exactly
that possibly-defaulted object. -/
theorem claim_C10_body_defaulting (envModel : Option String) (b : Body) :
    (defaultBody envModel b).rest = b.rest ∧
    (b.model = none → (defaultBody envModel b).model = some (envModelVal envModel)) ∧
    (∀ m, b.model = some m → m ≠ "" → (defaultBody envModel b).model = some m) ∧
    (b.messages = none →
      (defaultBody envModel b).messages = some [{ role := "user", content := "Hello" }]) ∧
    (∀ ms, b.messages = some ms → (defaultBody envModel b).messages = some ms) ∧
    (∀ (o : Nat → Except String Response) (s : RotState) (logs : List LogEntry) (x : Body),
      x ∈ (forwardToOpenRouter envModel o s b logs).sent → x = defaultBody envModel b) := by
  refine ⟨rfl, ?_, ?_, ?_, ?_, ?_⟩
  · intro hm
    simp [defaultBody, falsyStr, hm]
  · intro m hm hne
    simp [defaultBody, falsyStr, hm, hne]
  · intro hm
    simp [defaultBody, hm]
  · intro ms hm
    simp [defaultBody, hm]
  · intro o s logs x hx
    obtain ⟨n, hn2⟩ := forwardLoop_sent_replicate o (defaultBody envModel b)
      (lastUserMsg ((defaultBody envModel b).messages.getD [])) s.keys.length 0 s logs []
    have hrepl : (forwardToOpenRouter envModel o s b logs).sent =
        List.replicate n (defaultBody envModel b) := by
      have hfwd : forwardToOpenRouter envModel o s b logs =
          forwardLoop o (defaultBody envModel b)
            (lastUserMsg ((defaultBody envModel b).messages.getD []))
            s.keys.length 0 s logs [] := rfl
      rw [hfwd, hn2]
      simp
    rw [hrepl] at hx
    exact List.eq_of_mem_replicate hx

/-- Concrete body with an extra opaque field, used in the C10 witness. -/
def c10Body : Body :=
  { model := none, messages := some [{ role := "user", content := "hi" }],
    rest := [("stream", "true")] }

/-- Claim C10 witness: on a body with no model, one user message and one
extra field, the defaults fill the model, keep the messages and the extra
field, and the single payload sent upstream is the defaulted body. -/
theorem claim_C10_witness :
    (defaultBody none c10Body).rest = [("stream", "true")] ∧
    (defaultBody none c10Body).model = some (envModelVal none) ∧
    (defaultBody none c10Body).messages = some [{ role := "user", content := "hi" }] ∧
    ({ model := some ("deepseek/deepseek-chat-v3-0324:free"),
       messages := some [{ role := "user", content := "hi" }],
       rest := [("stream", "true")] } : Body) = defaultBody none c10Body :=
  ⟨(claim_C10_body_defaulting none c10Body).1,
   (claim_C10_body_defaulting none c10Body).2.1 rfl,
   (claim_C10_body_defaulting none c10Body).2.2.2.2.1 _ rfl,
   (claim_C10_body_defaulting none c10Body).2.2.2.2.2
     (fun _ => Except.ok { status := 200, contentType := none, text := "",
                           modelReply := "", retryAfter := none })
     { keys := ["a"], current := 0, rotations := 0,
       dead := [], rateLimited := [], useCount := [] }
     [] _ (by decide)⟩

/-- Claim C4 counterexample: in the index.js variant the fetch call is not
wrapped in try/catch inside the retry loop, so with two keys and a
transport error on the very first attempt the error propagates out of
forwardToOpenRouter and the route handler answers 500 after a single
attempt, while an untried credential remains. -/
theorem claim_C4_counterexample :
    (chatCompletions none (fun _ => Except.error ("ECONNRESET"))
      { keys := ["a", "b"], current := 0, rotations := 0,
        dead := [], rateLimited := [], useCount := [] }
      { model := some ("m"), messages := some [{ role := "user", content := "hi" }],
        rest := [] }
      []).status = 500 ∧
    (forwardToOpenRouter none (fun _ => Except.error ("ECONNRESET"))
      { keys := ["a", "b"], current := 0, rotations := 0,
        dead := [], rateLimited := [], useCount := [] }
      { model := some ("m"), messages := some [{ role := "user", content := "hi" }],
        rest := [] }
      []).sent.length = 1 := by
  exact ⟨rfl, rfl⟩

/-- Claim C4 (amended): the part_001 variant recovers from transport
failures locally: with no pending cooldowns and at least two keys, a
transport error on the first attempt consumes one attempt, the loop rotates
and retries, and when the second attempt answers with a pass-through status
the caller receives that upstream response, so the transport error never
surfaces; exactly two fetch attempts are made. -/
theorem claim_C4_transport_recovery (envModel : Option String)
    (o : Nat → Except String Response) (now : Nat) (jitter : Nat → Nat)
    (s : P1State) (b : Body) (logs : List LogEntry) (e : String) (r : Response)
    (hcd : s.cooldown = [])
    (hn : 2 ≤ s.keys.length)
    (h0 : o 0 = Except.error e)
    (h1 : o 1 = Except.ok r)
    (h429 : r.status ≠ 429) (h401 : r.status ≠ 401) (h403 : r.status ≠ 403) :
    (forwardP1 envModel o now jitter s b logs).result =
      { status := r.status, contentType := r.contentType.getD "application/json",
        text := r.text } ∧
    (forwardP1 envModel o now jitter s b logs).sent.length = 2 := by
  obtain ⟨m, hm⟩ : ∃ m, s.keys.length = m + 2 := ⟨s.keys.length - 2, by omega⟩
  have hfwd : forwardP1 envModel o now jitter s b logs =
      forwardP1Loop o (defaultBody envModel b)
        (lastUserMsg ((defaultBody envModel b).messages.getD []))
        now jitter s.keys.length 0 s logs [] := rfl
  rw [hfwd, hm]
  simp [forwardP1Loop, rotateKeyC, hcd, cdGet, h0, h1, h429, h401, h403]

/-- Claim C4 witness: two keys, transport error on attempt 0, HTTP 200 with
body OK on attempt 1: the caller receives the 200 pass-through result. -/
theorem claim_C4_witness :
    (forwardP1 none
      (fun i => if i = 0 then Except.error ("ECONNRESET")
                else Except.ok { status := 200, contentType := some "application/json",
                                 text := "OK", modelReply := "", retryAfter := none })
      100 (fun _ => 500)
      { keys := ["a", "b"], current := 0, rotations := 0, dead := [],
        rateLimited := [], useCount := [], cooldown := [] }
      { model := none, messages := none, rest := [] } []).result =
      { status := 200, contentType := "application/json", text := "OK" } :=
  (claim_C4_transport_recovery none _ 100 _ _ _ [] ("ECONNRESET") _
    rfl (by decide) rfl rfl (by decide) (by decide) (by decide)).1

/-- Claim C6: along every reachable trace of the admission queue, at most
maxConcurrent tasks are in flight simultaneously, and every task that
started while another was in flight at the admission check started at least
minInterval after the previous task's recorded start time; only a task
admitted with nothing in flight may start sooner. -/
theorem claim_C6_admission_invariant (cfg : QCfg) (t : Nat) (s : QState)
    (h : QReach cfg t s) : QInv cfg t s := by
  induction h with
  | init =>
    refine ⟨Nat.zero_le _, Nat.le_refl 0, ?_, trivial⟩
    intro p hp
    simp at hp
  | step hreach hle hstep ih =>
    rename_i t0 t2 s0 s2
    obtain ⟨ha, hls, hhead, hgap⟩ := ih
    cases hstep with
    | submit =>
      exact ⟨ha, Nat.le_trans hls hle, hhead, hgap⟩
    | start hcap hq hwait =>
      refine ⟨hcap, Nat.le_refl _, ?_, ?_⟩
      · intro p hp
        simp at hp
        rw [← hp]
      · cases hs : s0.starts with
        | nil =>
          trivial
        | cons p rest =>
          obtain ⟨t1, b1⟩ := p
          refine ⟨?_, ?_⟩
          · intro hb
            have hact : 0 < s0.active := of_decide_eq_true hb
            have hlast : s0.lastStart = t1 := hhead (t1, b1) (by rw [hs]; rfl)
            rcases hwait with hw | hw
            · have hle2 : s0.lastStart ≤ t2 := Nat.le_trans hls hle
              omega
            · omega
          · have hg := hgap
            rw [hs] at hg
            exact hg
    | finish hact =>
      exact ⟨Nat.le_trans (Nat.sub_le _ _) ha, Nat.le_trans hls hle, hhead, hgap⟩

/-- Claim C6 witness: with maxConcurrent 2 and minInterval 100, the trace
submit@0, submit@0, start@0 (idle, immediate), start@150 (busy, gap 150),
finish@150 reaches a state satisfying the queue invariant. -/
theorem claim_C6_witness :
    QInv ⟨2, 100⟩ 150 ⟨1, 150, 0, [(150, true), (0, false)]⟩ := by
  apply claim_C6_admission_invariant
  have h0 : QReach ⟨2, 100⟩ 0 ⟨0, 0, 0, []⟩ := QReach.init
  have h1 : QReach ⟨2, 100⟩ 0 ⟨0, 0, 1, []⟩ :=
    QReach.step h0 (Nat.le_refl 0) (QStep.submit ⟨0, 0, 0, []⟩ 0)
  have h2 : QReach ⟨2, 100⟩ 0 ⟨0, 0, 2, []⟩ :=
    QReach.step h1 (Nat.le_refl 0) (QStep.submit ⟨0, 0, 1, []⟩ 0)
  have h3 : QReach ⟨2, 100⟩ 0 ⟨1, 0, 1, [(0, false)]⟩ :=
    QReach.step h2 (Nat.le_refl 0)
      (QStep.start ⟨0, 0, 2, []⟩ 0 (by decide) (by decide) (Or.inr rfl))
  have h4 : QReach ⟨2, 100⟩ 150 ⟨2, 150, 0, [(150, true), (0, false)]⟩ :=
    QReach.step h3 (by omega)
      (QStep.start ⟨1, 0, 1, [(0, false)]⟩ 150 (by decide) (by decide) (Or.inl (by decide)))
  exact QReach.step h4 (Nat.le_refl 150)
    (QStep.finish ⟨2, 150, 0, [(150, true), (0, false)]⟩ 150 (by decide))

end Rotator
